import Mathlib

/-!
# API key manager (`dist/index.js`)

A shallow embedding of `APIKeyManager`: the status policy, the two request
checks `withExistingKey` / `withValidKey`, and the administrative operations
`upsert`, `delete` and `getKeyInfo` over a key-value configuration store.

JavaScript values are modelled as follows.
* An optional property is an `Option`; `none` stands for `undefined`.
* Truthiness is explicit: a string is truthy when it is non-empty, a boolean
  when it is `true`, an object (a `Date`, a record) always.
* `new Date()` is an explicit clock argument `now`, in milliseconds.
* A promise-returning method yields an `Outcome`: resolved, rejected, or an
  exception thrown before any promise was produced.
-/

namespace APIKeys

/-! ## Data model -/

/-- Time value of a JavaScript `Date` object: milliseconds since the epoch, or
the invalid date whose time value is `NaN`. -/
inductive JSDate where
  | valid (ms : Int)
  | invalid
  deriving DecidableEq, Repr

/-- The comparison `d < new Date()`, with `now` the time value of `new Date()`.
Both sides are converted to their time values; a comparison with `NaN` is false. -/
def JSDate.lt : JSDate → Int → Bool
  | .valid ms, now => decide (ms < now)
  | .invalid, _ => false

/-- The record `APIKeyInfo` as a plain JavaScript object: each property may be
missing. The class constructor sets `isActive = true`; objects read back from the
store, and the `{}` written by `delete`, need not have gone through it. -/
structure APIKeyInfo where
  issuee : Option String
  isActive : Option Bool
  expiryDate : Option JSDate
  deriving DecidableEq, Repr

/-- The object built by `new APIKeyInfo()`: only `isActive` is set. -/
def APIKeyInfo.new : APIKeyInfo := ⟨none, some true, none⟩

/-- The object literal `{}`. -/
def APIKeyInfo.empty : APIKeyInfo := ⟨none, none, none⟩

/-- The enum `KeyStatus`. -/
inductive KeyStatus where
  | DoesNotExist
  | Inactive
  | Expired
  | Valid
  deriving DecidableEq, Repr

/-- The numeric tag the enum assigns to each status. -/
def KeyStatus.toNat : KeyStatus → Nat
  | .DoesNotExist => 0
  | .Inactive => 1
  | .Expired => 2
  | .Valid => 3

/-- The constant `APIKEYS_PREFIX`. -/
def APIKEYS_PREFIX : String := "APIKeys"

/-- Truthiness of an optional string property: present and non-empty. -/
def truthyString : Option String → Bool
  | some s => decide (s ≠ "")
  | none => false

/-- Truthiness of an optional boolean property: present and `true`. -/
def truthyBool : Option Bool → Bool
  | some b => b
  | none => false

/-! ## Collaborators -/

/-- Modelled from the spec: the configuration store (`IConfigurationStore`) is an
injected collaborator whose code is not part of this repository. It is a
key-value store with get/set semantics: a lookup never fails for a missing key
and yields an absent value instead. -/
abbrev ConfigStore := String → Option APIKeyInfo

/-- Modelled from the spec: `getGlobalData(key)` returns the stored value, absent
when nothing was stored. -/
def getGlobalData (store : ConfigStore) (key : String) : Option APIKeyInfo :=
  store key

/-- Modelled from the spec: `setGlobalData(key, value)` overwrites the stored
value for `key` and leaves every other entry alone. -/
def setGlobalData (store : ConfigStore) (key : String) (value : APIKeyInfo) :
    ConfigStore :=
  fun k => if k = key then some value else store k

/-- The store in which nothing was ever written. -/
def emptyStore : ConfigStore := fun _ => none

/-- An inbound request: an object whose `headers` property, when present, maps
header names to string values. -/
structure Request where
  headers : Option (List (String × String))
  deriving DecidableEq, Repr

/-- Result of calling a promise-returning method. -/
inductive Outcome (α : Type) where
  | resolved (value : α)
  | rejected (message : String)
  | thrown (message : String)
  deriving DecidableEq, Repr

/-- Characters removed by `String.prototype.trim`: the ECMAScript `WhiteSpace`
and `LineTerminator` code points. -/
def isJSWhiteSpace (c : Char) : Bool :=
  let n := c.toNat
  n == 0x09 || n == 0x0A || n == 0x0B || n == 0x0C || n == 0x0D || n == 0x20 ||
  n == 0xA0 || n == 0x1680 || (0x2000 ≤ n && n ≤ 0x200A) || n == 0x2028 ||
  n == 0x2029 || n == 0x202F || n == 0x205F || n == 0x3000 || n == 0xFEFF

/-- The method `String.prototype.trim`: strips white space from both ends. -/
def jsTrim (s : String) : String :=
  ⟨((s.data.dropWhile isJSWhiteSpace).reverse.dropWhile isJSWhiteSpace).reverse⟩

/-! ## The manager -/

/-- Message of the error raised when the request carries no key. -/
def MissingKey : String := "API key was not specified in request header"

/-- Message of the error raised when the key is not registered. -/
def UnknownKey : String := "API Key does not exist"

/-- Message of the error raised when the key is registered but not valid. -/
def InvalidKey : String := "API key is invalid"

/-- The default value of the constructor argument `requestHeaderKey`. -/
def defaultRequestHeaderKey : String := "x-api-key"

/-- The method `getDBKey`: `APIKEYS_PREFIX + "/" + key`. -/
def getDBKey (key : String) : String :=
  APIKEYS_PREFIX ++ "/" ++ key

/-- The method `getKeyInfo`: reads the namespaced entry from the store. -/
def getKeyInfo (store : ConfigStore) (key : String) : Option APIKeyInfo :=
  getGlobalData store (getDBKey key)

/-- The method `status`, with the clock reading `now` standing for `new Date()`. -/
def status (now : Int) (info : Option APIKeyInfo) : KeyStatus :=
  match info with
  | some i =>
    if truthyString i.issuee then
      if !truthyBool i.isActive then KeyStatus.Inactive
      else
        match i.expiryDate with
        | some d => if d.lt now then KeyStatus.Expired else KeyStatus.Valid
        | none => KeyStatus.Valid
    else KeyStatus.DoesNotExist
  | none => KeyStatus.DoesNotExist

/-- The string the request carries under the configured header name: the value of
the own property `requestHeaderKey` of `request.headers`, when the request, its
headers object and that property are all there. -/
def headerValue (requestHeaderKey : String) (request : Option Request) : Option String :=
  match request with
  | none => none
  | some req =>
    match req.headers with
    | none => none
    | some hs => hs.lookup requestHeaderKey

/-- Names of the properties every plain object inherits from `Object.prototype`.
Reading one of them on an object that has no own property of that name yields a
function (for `__proto__`, the prototype object): a truthy value that is not a
string. -/
def objectPrototypeNames : List String :=
  ["constructor", "__proto__", "hasOwnProperty", "isPrototypeOf",
   "propertyIsEnumerable", "toLocaleString", "toString", "valueOf",
   "__defineGetter__", "__defineSetter__", "__lookupGetter__", "__lookupSetter__"]

/-- Value of the expression
`request && request.headers && request.headers[requestHeaderKey]`. -/
inductive HeaderRead where
  | text (value : String)
  | inherited
  | undefined
  deriving DecidableEq, Repr

/-- The expression `request && request.headers && request.headers[requestHeaderKey]`.
The headers object is a plain object: a property read finds an own property
first and otherwise follows the prototype chain. -/
def headerRead (requestHeaderKey : String) (request : Option Request) : HeaderRead :=
  match request with
  | none => HeaderRead.undefined
  | some req =>
    match req.headers with
    | none => HeaderRead.undefined
    | some hs =>
      match hs.lookup requestHeaderKey with
      | some value => HeaderRead.text value
      | none =>
        if requestHeaderKey ∈ objectPrototypeNames then HeaderRead.inherited
        else HeaderRead.undefined

/-- Message of the `TypeError` raised by `key.trim()` when `key` is not a string. -/
def KeyTrimTypeError : String := "key.trim is not a function"

/-- The method `withExistingKey`. The missing-key error is thrown before a
promise exists; the unknown-key error rejects the promise of the lookup. A truthy
`key` that is not a string passes the guard and makes `key.trim()` throw, before
any store call. -/
def withExistingKey (requestHeaderKey : String) (store : ConfigStore) (now : Int)
    (request : Option Request) : Outcome (Option APIKeyInfo) :=
  match headerRead requestHeaderKey request with
  | HeaderRead.text key =>
    if key ≠ "" then
      let keyInfo := getKeyInfo store (jsTrim key)
      if status now keyInfo ≠ KeyStatus.DoesNotExist then Outcome.resolved keyInfo
      else Outcome.rejected UnknownKey
    else Outcome.thrown MissingKey
  | HeaderRead.inherited => Outcome.thrown KeyTrimTypeError
  | HeaderRead.undefined => Outcome.thrown MissingKey

/-- The method `withValidKey`. `now₁` is the clock when `withExistingKey` computes
the status, `now₂` the clock when the continuation computes it again. -/
def withValidKey (requestHeaderKey : String) (store : ConfigStore) (now₁ now₂ : Int)
    (request : Option Request) : Outcome (Option APIKeyInfo) :=
  match withExistingKey requestHeaderKey store now₁ request with
  | Outcome.resolved keyInfo =>
    if status now₂ keyInfo = KeyStatus.Valid then Outcome.resolved keyInfo
    else Outcome.rejected InvalidKey
  | Outcome.rejected e => Outcome.rejected e
  | Outcome.thrown e => Outcome.thrown e

/-- The method `upsert`: stores `info` under the namespaced key. -/
def upsert (store : ConfigStore) (key : String) (info : APIKeyInfo) : ConfigStore :=
  setGlobalData store (getDBKey key) info

/-- The method `delete`: stores `{}` under the namespaced key. -/
def delete (store : ConfigStore) (key : String) : ConfigStore :=
  setGlobalData store (getDBKey key) APIKeyInfo.empty

/-- A request carrying a single header. -/
def requestWith (name value : String) : Option Request :=
  some ⟨some [(name, value)]⟩

/-! ## The methods as store transformers

The same methods with the store threaded through, so that the effect of each
call on the store is part of its result. Every method takes the store before the
call and returns its result together with the store after the call. -/

/-- Modelled from the spec: `getGlobalData(key)` as a store transformer; a read
hands back the store as it found it. -/
def getGlobalDataS (key : String) (store : ConfigStore) :
    Option APIKeyInfo × ConfigStore :=
  (getGlobalData store key, store)

/-- Modelled from the spec: `setGlobalData(key, value)` as a store transformer. -/
def setGlobalDataS (key : String) (value : APIKeyInfo) (store : ConfigStore) :
    Unit × ConfigStore :=
  ((), setGlobalData store key value)

/-- The method `getKeyInfo` as a store transformer: one call of `getGlobalData`. -/
def getKeyInfoS (key : String) (store : ConfigStore) : Option APIKeyInfo × ConfigStore :=
  getGlobalDataS (getDBKey key) store

/-- The method `status` as a store transformer: its body makes no store call. -/
def statusS (now : Int) (info : Option APIKeyInfo) (store : ConfigStore) :
    KeyStatus × ConfigStore :=
  (status now info, store)

/-- The method `withExistingKey` as a store transformer: at most one call of
`getKeyInfo`, then one call of `status`. -/
def withExistingKeyS (requestHeaderKey : String) (now : Int) (request : Option Request)
    (store : ConfigStore) : Outcome (Option APIKeyInfo) × ConfigStore :=
  match headerRead requestHeaderKey request with
  | HeaderRead.text key =>
    if key ≠ "" then
      let fetched := getKeyInfoS (jsTrim key) store
      let checked := statusS now fetched.1 fetched.2
      if checked.1 ≠ KeyStatus.DoesNotExist then (Outcome.resolved fetched.1, checked.2)
      else (Outcome.rejected UnknownKey, checked.2)
    else (Outcome.thrown MissingKey, store)
  | HeaderRead.inherited => (Outcome.thrown KeyTrimTypeError, store)
  | HeaderRead.undefined => (Outcome.thrown MissingKey, store)

/-- The method `withValidKey` as a store transformer: `withExistingKey`, then one
call of `status` in the continuation. -/
def withValidKeyS (requestHeaderKey : String) (now₁ now₂ : Int) (request : Option Request)
    (store : ConfigStore) : Outcome (Option APIKeyInfo) × ConfigStore :=
  let existing := withExistingKeyS requestHeaderKey now₁ request store
  match existing.1 with
  | Outcome.resolved keyInfo =>
    let checked := statusS now₂ keyInfo existing.2
    if checked.1 = KeyStatus.Valid then (Outcome.resolved keyInfo, checked.2)
    else (Outcome.rejected InvalidKey, checked.2)
  | Outcome.rejected e => (Outcome.rejected e, existing.2)
  | Outcome.thrown e => (Outcome.thrown e, existing.2)

/-- The method `upsert` as a store transformer: one call of `setGlobalData`. -/
def upsertS (key : String) (info : APIKeyInfo) (store : ConfigStore) : Unit × ConfigStore :=
  setGlobalDataS (getDBKey key) info store

/-- The method `delete` as a store transformer: one call of `setGlobalData`. -/
def deleteS (key : String) (store : ConfigStore) : Unit × ConfigStore :=
  setGlobalDataS (getDBKey key) APIKeyInfo.empty store

/-! ## Auxiliary facts -/

theorem getDBKey_eq (key : String) : getDBKey key = "APIKeys/" ++ key := by
  unfold getDBKey APIKEYS_PREFIX
  rw [String.append_assoc]
  rfl

theorem getGlobalData_setGlobalData_same (store : ConfigStore) (key : String)
    (value : APIKeyInfo) : getGlobalData (setGlobalData store key value) key = some value := by
  simp [getGlobalData, setGlobalData]

theorem status_of_falsy_issuee (now : Int) (r : APIKeyInfo)
    (h : truthyString r.issuee = false) : status now (some r) = KeyStatus.DoesNotExist := by
  simp [status, h]

theorem status_of_truthy_issuee (now : Int) (r : APIKeyInfo)
    (h : truthyString r.issuee = true) : status now (some r) ≠ KeyStatus.DoesNotExist := by
  unfold status
  simp only [h, if_true]
  cases truthyBool r.isActive
  · simp
  · cases r.expiryDate with
    | none => simp
    | some d => cases hd : d.lt now <;> simp [hd]

theorem truthyString_some (s : String) (h : s ≠ "") : truthyString (some s) = true := by
  simp [truthyString, h]

theorem headerRead_of_headerValue (requestHeaderKey : String) (request : Option Request)
    (h : String) (hv : headerValue requestHeaderKey request = some h) :
    headerRead requestHeaderKey request = HeaderRead.text h := by
  unfold headerValue at hv
  unfold headerRead
  cases request with
  | none => simp at hv
  | some req =>
    cases hh : req.headers with
    | none => simp [hh] at hv
    | some hs =>
      simp only [hh] at hv
      simp only [hh, hv]

theorem withExistingKey_of_header (requestHeaderKey : String) (store : ConfigStore)
    (now : Int) (request : Option Request) (h : String)
    (hv : headerValue requestHeaderKey request = some h) (hne : h ≠ "") :
    withExistingKey requestHeaderKey store now request =
      if status now (getKeyInfo store (jsTrim h)) ≠ KeyStatus.DoesNotExist
      then Outcome.resolved (getKeyInfo store (jsTrim h))
      else Outcome.rejected UnknownKey := by
  simp [withExistingKey, headerRead_of_headerValue requestHeaderKey request h hv, hne]

theorem status_ne_doesNotExist (now : Int) (info : Option APIKeyInfo)
    (h : status now info ≠ KeyStatus.DoesNotExist) :
    ∃ i, info = some i ∧ truthyString i.issuee = true := by
  cases info with
  | none => exact absurd rfl h
  | some i =>
    refine ⟨i, rfl, ?_⟩
    by_contra hf
    exact h (status_of_falsy_issuee now i (by simpa using hf))

theorem withExistingKey_resolved (requestHeaderKey : String) (store : ConfigStore)
    (now : Int) (request : Option Request) (r : Option APIKeyInfo)
    (he : withExistingKey requestHeaderKey store now request = Outcome.resolved r) :
    ∃ i, r = some i ∧ truthyString i.issuee = true := by
  unfold withExistingKey at he
  cases hv : headerRead requestHeaderKey request with
  | undefined => simp [hv] at he
  | inherited => simp [hv] at he
  | text key =>
    simp only [hv] at he
    by_cases hk : key = ""
    · simp [hk] at he
    · by_cases hst : status now (getKeyInfo store (jsTrim key)) = KeyStatus.DoesNotExist
      · simp [hk, hst] at he
      · simp only [ne_eq, hk, not_false_eq_true, if_true, hst] at he
        injection he with he
        subst he
        exact status_ne_doesNotExist now _ hst

/-! ## The status policy -/

/-- C1: a record without `issuee` has status `DoesNotExist` whatever its other
fields and whatever the clock, and so has the absent record. -/
theorem status_no_issuee (now : Int) (r : APIKeyInfo) (h : r.issuee = none) :
    status now (some r) = KeyStatus.DoesNotExist ∧
    status now none = KeyStatus.DoesNotExist := by
  constructor
  · apply status_of_falsy_issuee
    rw [h]
    rfl
  · rfl

theorem status_no_issuee_witness :
    (APIKeyInfo.mk none (some true) (some (JSDate.valid 0))).issuee = none ∧
    (status 100 (some (APIKeyInfo.mk none (some true) (some (JSDate.valid 0))))
        = KeyStatus.DoesNotExist ∧
      status 100 none = KeyStatus.DoesNotExist) :=
  ⟨rfl, status_no_issuee 100 _ rfl⟩

/-- C2, as stated, fails: a record whose `issuee` is set to the empty string and
whose `isActive` is `false` has status `DoesNotExist`, not `Inactive`. -/
theorem status_inactive_counterexample :
    (APIKeyInfo.mk (some "") (some false) none).issuee.isSome = true ∧
    (APIKeyInfo.mk (some "") (some false) none).isActive = some false ∧
    status 0 (some (APIKeyInfo.mk (some "") (some false) none)) = KeyStatus.DoesNotExist ∧
    status 0 (some (APIKeyInfo.mk (some "") (some false) none)) ≠ KeyStatus.Inactive := by
  decide

/-- C2 (amended): a record whose `issuee` is a non-empty string and whose
`isActive` is `false` has status `Inactive`, whatever its `expiryDate` and
whatever the clock. -/
theorem status_inactive (now : Int) (r : APIKeyInfo) (s : String)
    (hi : r.issuee = some s) (hs : s ≠ "") (ha : r.isActive = some false) :
    status now (some r) = KeyStatus.Inactive := by
  simp [status, hi, ha, truthyString, truthyBool, hs]

theorem status_inactive_witness :
    (APIKeyInfo.mk (some "alice") (some false) (some (JSDate.valid 0))).issuee = some "alice" ∧
    "alice" ≠ "" ∧
    (JSDate.valid 0).lt 100 = true ∧
    status 100 (some (APIKeyInfo.mk (some "alice") (some false) (some (JSDate.valid 0))))
      = KeyStatus.Inactive :=
  ⟨rfl, by decide, by decide, status_inactive 100 _ "alice" rfl (by decide) rfl⟩

/-- C3, as stated, fails: a record whose `issuee` is set to the empty string, with
`isActive` true and an expiry date before the clock, has status `DoesNotExist`. -/
theorem status_expired_counterexample :
    (APIKeyInfo.mk (some "") (some true) (some (JSDate.valid 0))).issuee.isSome = true ∧
    (APIKeyInfo.mk (some "") (some true) (some (JSDate.valid 0))).isActive = some true ∧
    (0 : Int) < 100 ∧
    status 100 (some (APIKeyInfo.mk (some "") (some true) (some (JSDate.valid 0))))
      = KeyStatus.DoesNotExist ∧
    status 100 (some (APIKeyInfo.mk (some "") (some true) (some (JSDate.valid 0))))
      ≠ KeyStatus.Expired := by
  decide

/-- C3 (amended): a record whose `issuee` is a non-empty string, whose `isActive`
is `true` and whose expiry date is strictly before the clock has status `Expired`. -/
theorem status_expired (now : Int) (r : APIKeyInfo) (s : String) (ms : Int)
    (hi : r.issuee = some s) (hs : s ≠ "") (ha : r.isActive = some true)
    (he : r.expiryDate = some (JSDate.valid ms)) (hlt : ms < now) :
    status now (some r) = KeyStatus.Expired := by
  simp [status, hi, ha, he, truthyString, truthyBool, hs, JSDate.lt, hlt]

theorem status_expired_witness :
    "bob" ≠ "" ∧ (0 : Int) < 100 ∧
    status 100 (some (APIKeyInfo.mk (some "bob") (some true) (some (JSDate.valid 0))))
      = KeyStatus.Expired :=
  ⟨by decide, by decide, status_expired 100 _ "bob" 0 rfl (by decide) rfl rfl (by decide)⟩

/-- C4, as stated, fails: a record whose `issuee` is set to the empty string, with
`isActive` true and no expiry date, has status `DoesNotExist`. -/
theorem status_valid_counterexample :
    (APIKeyInfo.mk (some "") (some true) none).issuee.isSome = true ∧
    (APIKeyInfo.mk (some "") (some true) none).isActive = some true ∧
    (APIKeyInfo.mk (some "") (some true) none).expiryDate = none ∧
    status 0 (some (APIKeyInfo.mk (some "") (some true) none)) = KeyStatus.DoesNotExist ∧
    status 0 (some (APIKeyInfo.mk (some "") (some true) none)) ≠ KeyStatus.Valid := by
  decide

/-- C4 (amended): a record whose `issuee` is a non-empty string, whose `isActive`
is `true` and whose expiry date is absent or strictly after the clock has status
`Valid`. -/
theorem status_valid (now : Int) (r : APIKeyInfo) (s : String)
    (hi : r.issuee = some s) (hs : s ≠ "") (ha : r.isActive = some true)
    (he : r.expiryDate = none ∨ ∃ ms, r.expiryDate = some (JSDate.valid ms) ∧ now < ms) :
    status now (some r) = KeyStatus.Valid := by
  rcases he with he | ⟨ms, he, hlt⟩
  · simp [status, hi, ha, he, truthyString, truthyBool, hs]
  · have : ¬ ms < now := by omega
    simp [status, hi, ha, he, truthyString, truthyBool, hs, JSDate.lt, this]

theorem status_valid_witness :
    "alice" ≠ "" ∧ (100 : Int) < 200 ∧
    status 100 (some (APIKeyInfo.mk (some "alice") (some true) (some (JSDate.valid 200))))
      = KeyStatus.Valid :=
  ⟨by decide, by decide,
    status_valid 100 _ "alice" rfl (by decide) rfl (Or.inr ⟨200, rfl, by decide⟩)⟩

/-! ## Request checks -/

/-- C5: `withValidKey` fails with exactly the failure of `withExistingKey` when
that fails (a thrown error stays thrown, a rejection stays a rejection with the
same message); when `withExistingKey` resolves with `r`, the status of `r` is
never `DoesNotExist`, `withValidKey` resolves with the same `r` if that status is
`Valid`, and rejects with the one message `InvalidKey` if it is `Inactive` or
`Expired`. -/
theorem withValidKey_spec (requestHeaderKey : String) (store : ConfigStore)
    (now₁ now₂ : Int) (request : Option Request) :
    (∀ e, withExistingKey requestHeaderKey store now₁ request = Outcome.thrown e →
      withValidKey requestHeaderKey store now₁ now₂ request = Outcome.thrown e) ∧
    (∀ e, withExistingKey requestHeaderKey store now₁ request = Outcome.rejected e →
      withValidKey requestHeaderKey store now₁ now₂ request = Outcome.rejected e) ∧
    (∀ r, withExistingKey requestHeaderKey store now₁ request = Outcome.resolved r →
      status now₂ r ≠ KeyStatus.DoesNotExist ∧
      (status now₂ r = KeyStatus.Valid →
        withValidKey requestHeaderKey store now₁ now₂ request = Outcome.resolved r) ∧
      (status now₂ r = KeyStatus.Inactive ∨ status now₂ r = KeyStatus.Expired →
        withValidKey requestHeaderKey store now₁ now₂ request
          = Outcome.rejected InvalidKey)) := by
  refine ⟨?_, ?_, ?_⟩
  · intro e he
    simp [withValidKey, he]
  · intro e he
    simp [withValidKey, he]
  · intro r he
    refine ⟨?_, ?_, ?_⟩
    · -- the record passed the existence check at `now₁`; existence ignores the clock
      obtain ⟨i, hi, ht⟩ := withExistingKey_resolved _ _ _ _ _ he
      rw [hi]
      exact status_of_truthy_issuee now₂ i ht
    · intro hv
      simp [withValidKey, he, hv]
    · intro hv
      have : status now₂ r ≠ KeyStatus.Valid := by
        rcases hv with hv | hv <;> rw [hv] <;> decide
      simp [withValidKey, he, this]

/-- Scenario C: header `"abc123"`, stored record `{issuee: "alice", isActive: true}`:
`withValidKey` resolves with that record. -/
theorem withValidKey_spec_witness :
    withValidKey defaultRequestHeaderKey
      (upsert emptyStore "abc123" (APIKeyInfo.mk (some "alice") (some true) none)) 5 6
      (requestWith defaultRequestHeaderKey "abc123")
      = Outcome.resolved (some (APIKeyInfo.mk (some "alice") (some true) none)) :=
  ((withValidKey_spec defaultRequestHeaderKey
      (upsert emptyStore "abc123" (APIKeyInfo.mk (some "alice") (some true) none)) 5 6
      (requestWith defaultRequestHeaderKey "abc123")).2.2
    (some (APIKeyInfo.mk (some "alice") (some true) none)) (by decide)).2.1 (by decide)

/-- C6, as stated, fails: when the configured header name is the name of a
property that every plain object inherits, such as `constructor`, and the headers
object has no entry of that name, the read yields the inherited function, which
passes the guard, and `key.trim()` throws a `TypeError` instead of the
missing-key error. -/
theorem withExistingKey_missing_counterexample :
    List.lookup "constructor" ([] : List (String × String)) = none ∧
    withExistingKey "constructor" emptyStore 0 (some (Request.mk (some [])))
      = Outcome.thrown KeyTrimTypeError ∧
    withExistingKey "constructor" emptyStore 0 (some (Request.mk (some [])))
      ≠ Outcome.thrown MissingKey := by
  decide

/-- C6 (amended): when the request is absent, has no headers object, has no entry
for the configured header while that name is not one every plain object inherits,
or has the empty string there, `withExistingKey` fails with `MissingKey`, whatever
the store holds. -/
theorem withExistingKey_missing (requestHeaderKey : String) (store : ConfigStore)
    (now : Int) (request : Option Request)
    (h : request = none ∨ request = some ⟨none⟩ ∨
      (∃ hs, request = some ⟨some hs⟩ ∧ hs.lookup requestHeaderKey = none ∧
        requestHeaderKey ∉ objectPrototypeNames) ∨
      (∃ hs, request = some ⟨some hs⟩ ∧ hs.lookup requestHeaderKey = some "")) :
    withExistingKey requestHeaderKey store now request = Outcome.thrown MissingKey := by
  rcases h with h | h | ⟨hs, h, hl, hp⟩ | ⟨hs, h, hl⟩
  · simp [withExistingKey, headerRead, h]
  · simp [withExistingKey, headerRead, h]
  · simp [withExistingKey, headerRead, h, hl, hp]
  · simp [withExistingKey, headerRead, h, hl]

/-- Scenario A: a request whose headers do not include the configured one. -/
theorem withExistingKey_missing_witness :
    defaultRequestHeaderKey ∉ objectPrototypeNames ∧
    withExistingKey defaultRequestHeaderKey
      (upsert emptyStore "abc123" (APIKeyInfo.mk (some "alice") (some true) none)) 5
      (requestWith "content-type" "text/plain") = Outcome.thrown MissingKey :=
  ⟨by decide,
    withExistingKey_missing defaultRequestHeaderKey _ 5 _
      (Or.inr (Or.inr (Or.inl
        ⟨[("content-type", "text/plain")], rfl, by decide, by decide⟩)))⟩

/-- C7: the code at a failing input. A header made only of spaces is non-empty,
so it passes the guard that raises the missing-key error; it is then trimmed to
the empty key, which is looked up. With nothing stored the failure is
`UnknownKey`, not `MissingKey`; with a record stored under the empty key the check
resolves with that record, although the header `""` itself is refused as missing
and so can never reach it. -/
theorem withExistingKey_blank_failing_input :
    jsTrim "   " = "" ∧
    withExistingKey defaultRequestHeaderKey emptyStore 0
      (requestWith defaultRequestHeaderKey "   ") = Outcome.rejected UnknownKey ∧
    withExistingKey defaultRequestHeaderKey emptyStore 0
      (requestWith defaultRequestHeaderKey "   ") ≠ Outcome.thrown MissingKey ∧
    withExistingKey defaultRequestHeaderKey
      (upsert emptyStore "" (APIKeyInfo.mk (some "alice") (some true) none)) 0
      (requestWith defaultRequestHeaderKey "   ")
      = Outcome.resolved (some (APIKeyInfo.mk (some "alice") (some true) none)) ∧
    withExistingKey defaultRequestHeaderKey
      (upsert emptyStore "" (APIKeyInfo.mk (some "alice") (some true) none)) 0
      (requestWith defaultRequestHeaderKey "") = Outcome.thrown MissingKey := by
  decide

/-- C8: for a non-empty header value `h`, when the store entry under
`"APIKeys/" ++ trim h` is absent or is a record without `issuee`,
`withExistingKey` fails with `UnknownKey`. -/
theorem withExistingKey_unknown (requestHeaderKey : String) (store : ConfigStore)
    (now : Int) (request : Option Request) (h : String)
    (hv : headerValue requestHeaderKey request = some h) (hne : h ≠ "")
    (hs : store ("APIKeys/" ++ jsTrim h) = none ∨
      ∃ r, store ("APIKeys/" ++ jsTrim h) = some r ∧ r.issuee = none) :
    withExistingKey requestHeaderKey store now request = Outcome.rejected UnknownKey := by
  have hk : getKeyInfo store (jsTrim h) = store ("APIKeys/" ++ jsTrim h) := by
    unfold getKeyInfo getGlobalData
    rw [getDBKey_eq]
  rw [withExistingKey_of_header requestHeaderKey store now request h hv hne, hk]
  rcases hs with hs | ⟨r, hs, hr⟩
  · simp [hs, status]
  · have : status now (some r) = KeyStatus.DoesNotExist :=
      status_of_falsy_issuee now r (by rw [hr]; rfl)
    simp [hs, this]

/-- Scenario B: header `"abc123"`, nothing ever stored under that key. -/
theorem withExistingKey_unknown_witness :
    headerValue defaultRequestHeaderKey (requestWith defaultRequestHeaderKey "abc123")
      = some "abc123" ∧
    "abc123" ≠ "" ∧ emptyStore ("APIKeys/" ++ jsTrim "abc123") = none ∧
    withExistingKey defaultRequestHeaderKey emptyStore 7
      (requestWith defaultRequestHeaderKey "abc123") = Outcome.rejected UnknownKey :=
  ⟨by decide, by decide, rfl,
    withExistingKey_unknown defaultRequestHeaderKey emptyStore 7
      (requestWith defaultRequestHeaderKey "abc123") "abc123"
      (by decide) (by decide) (Or.inl rfl)⟩

/-! ## Administration -/

/-- C9, as stated, fails at three kinds of input: a record without `issuee` (here
the one built by the class constructor) is stored but then reported unknown; a
key with surrounding white space is stored under its raw form but looked up under
its trimmed form; the empty key is rejected as missing before any lookup. -/
theorem upsert_withExistingKey_counterexample :
    withExistingKey defaultRequestHeaderKey (upsert emptyStore "abc123" APIKeyInfo.new) 0
      (requestWith defaultRequestHeaderKey "abc123") = Outcome.rejected UnknownKey ∧
    withExistingKey defaultRequestHeaderKey
      (upsert emptyStore " abc123" (APIKeyInfo.mk (some "alice") (some true) none)) 0
      (requestWith defaultRequestHeaderKey " abc123") = Outcome.rejected UnknownKey ∧
    withExistingKey defaultRequestHeaderKey
      (upsert emptyStore "" (APIKeyInfo.mk (some "alice") (some true) none)) 0
      (requestWith defaultRequestHeaderKey "") = Outcome.thrown MissingKey := by
  decide

/-- C9 (amended): for every key `k` that is non-empty and has no surrounding white
space, and every record `r` whose `issuee` is a non-empty string, after
`upsert k r` the check `withExistingKey` on a request whose configured header
value is exactly `k` resolves with `r` unchanged. -/
theorem upsert_withExistingKey (requestHeaderKey : String) (store : ConfigStore)
    (now : Int) (request : Option Request) (k : String) (r : APIKeyInfo) (s : String)
    (hv : headerValue requestHeaderKey request = some k) (hne : k ≠ "")
    (ht : jsTrim k = k) (hi : r.issuee = some s) (hs : s ≠ "") :
    withExistingKey requestHeaderKey (upsert store k r) now request
      = Outcome.resolved (some r) := by
  have hk : getKeyInfo (upsert store k r) k = some r :=
    getGlobalData_setGlobalData_same store (getDBKey k) r
  have hst : status now (some r) ≠ KeyStatus.DoesNotExist :=
    status_of_truthy_issuee now r (by rw [hi]; exact truthyString_some s hs)
  rw [withExistingKey_of_header requestHeaderKey _ now request k hv hne, ht, hk]
  simp [hst]

theorem upsert_withExistingKey_witness :
    "abc123" ≠ "" ∧ jsTrim "abc123" = "abc123" ∧ "bob" ≠ "" ∧
    withExistingKey defaultRequestHeaderKey
      (upsert emptyStore "abc123" (APIKeyInfo.mk (some "bob") (some false) none)) 7
      (requestWith defaultRequestHeaderKey "abc123")
      = Outcome.resolved (some (APIKeyInfo.mk (some "bob") (some false) none)) :=
  ⟨by decide, by decide, by decide,
    upsert_withExistingKey defaultRequestHeaderKey emptyStore 7
      (requestWith defaultRequestHeaderKey "abc123") "abc123" _ "bob"
      (by decide) (by decide) (by decide) rfl (by decide)⟩

/-- C10: `upsert k r` followed by `getKeyInfo k` returns `r`, whatever the store
held under `k` before. -/
theorem getKeyInfo_upsert (store : ConfigStore) (k : String) (r : APIKeyInfo) :
    getKeyInfo (upsert store k r) k = some r := by
  unfold getKeyInfo upsert
  exact getGlobalData_setGlobalData_same store (getDBKey k) r

/-- C11: `delete k` is defined on every store, whether or not something is stored
under `k`; applying it twice leaves the same store as applying it once; and
afterwards the status of `getKeyInfo k` is `DoesNotExist` at every clock reading. -/
theorem delete_idempotent (store : ConfigStore) (k : String) :
    (∃ store', (deleteS k store) = ((), store') ∧ store' = delete store k) ∧
    delete (delete store k) k = delete store k ∧
    (∀ now, status now (getKeyInfo (delete store k) k) = KeyStatus.DoesNotExist) ∧
    (∀ now, status now (getKeyInfo (delete (delete store k) k) k)
      = KeyStatus.DoesNotExist) := by
  have hk : ∀ st, getKeyInfo (delete st k) k = some APIKeyInfo.empty := fun st =>
    getGlobalData_setGlobalData_same st (getDBKey k) APIKeyInfo.empty
  refine ⟨⟨delete store k, rfl, rfl⟩, ?_, ?_, ?_⟩
  · funext key
    simp only [delete, setGlobalData]
    by_cases h : key = getDBKey k <;> simp [h]
  · intro now
    rw [hk]
    rfl
  · intro now
    rw [hk]
    rfl

/-! ## Trimming -/

theorem dropWhile_prefix_of_fixed {α : Type} (p : α → Bool) (t x : List α)
    (ht : t <+: x) (hx : x.dropWhile p = x) : t.dropWhile p = t := by
  cases t with
  | nil => rfl
  | cons a t' =>
    obtain ⟨r, hr⟩ := ht
    subst hr
    rw [List.dropWhile_eq_self_iff] at hx ⊢
    intro _
    have := hx (by simp)
    simpa using this

theorem jsTrim_data (s : String) :
    (jsTrim s).data = (s.data.dropWhile isJSWhiteSpace).rdropWhile isJSWhiteSpace := rfl

theorem jsTrim_idempotent (s : String) : jsTrim (jsTrim s) = jsTrim s := by
  apply String.ext
  rw [jsTrim_data (jsTrim s), jsTrim_data s]
  have h₁ : ((s.data.dropWhile isJSWhiteSpace).rdropWhile isJSWhiteSpace).dropWhile
      isJSWhiteSpace = (s.data.dropWhile isJSWhiteSpace).rdropWhile isJSWhiteSpace :=
    dropWhile_prefix_of_fixed isJSWhiteSpace _ _ (List.rdropWhile_prefix _ _)
      (List.dropWhile_idempotent _ _)
  rw [h₁, List.rdropWhile_idempotent]

theorem ne_empty_of_jsTrim_ne_empty (h : String) (ht : jsTrim h ≠ "") : h ≠ "" := by
  intro he
  apply ht
  rw [he]
  rfl

/-- C12: for a header value `h` whose trimmed form is non-empty, `withExistingKey`
and `withValidKey` give the same outcome (the same record, or the same failure) on
a request carrying `h` as on a request carrying `trim h`, on every store. -/
theorem withExistingKey_trim (requestHeaderKey : String) (store : ConfigStore)
    (now₁ now₂ : Int) (request request' : Option Request) (h : String)
    (hv : headerValue requestHeaderKey request = some h)
    (hv' : headerValue requestHeaderKey request' = some (jsTrim h))
    (ht : jsTrim h ≠ "") :
    withExistingKey requestHeaderKey store now₁ request
      = withExistingKey requestHeaderKey store now₁ request' ∧
    withValidKey requestHeaderKey store now₁ now₂ request
      = withValidKey requestHeaderKey store now₁ now₂ request' := by
  have he : withExistingKey requestHeaderKey store now₁ request
      = withExistingKey requestHeaderKey store now₁ request' := by
    rw [withExistingKey_of_header requestHeaderKey store now₁ request h hv
        (ne_empty_of_jsTrim_ne_empty h ht),
      withExistingKey_of_header requestHeaderKey store now₁ request' (jsTrim h) hv' ht,
      jsTrim_idempotent]
  refine ⟨he, ?_⟩
  unfold withValidKey
  rw [he]

/-- Scenario D: the header `"  abc123  "` behaves as the header `"abc123"`. -/
theorem withExistingKey_trim_witness :
    jsTrim "  abc123  " = "abc123" ∧
    withExistingKey defaultRequestHeaderKey
        (upsert emptyStore "abc123" (APIKeyInfo.mk (some "alice") (some true) none)) 5
        (requestWith defaultRequestHeaderKey "  abc123  ")
      = withExistingKey defaultRequestHeaderKey
        (upsert emptyStore "abc123" (APIKeyInfo.mk (some "alice") (some true) none)) 5
        (requestWith defaultRequestHeaderKey "abc123") ∧
    withValidKey defaultRequestHeaderKey
        (upsert emptyStore "abc123" (APIKeyInfo.mk (some "alice") (some true) none)) 5 6
        (requestWith defaultRequestHeaderKey "  abc123  ")
      = withValidKey defaultRequestHeaderKey
        (upsert emptyStore "abc123" (APIKeyInfo.mk (some "alice") (some true) none)) 5 6
        (requestWith defaultRequestHeaderKey "abc123") ∧
    withValidKey defaultRequestHeaderKey
        (upsert emptyStore "abc123" (APIKeyInfo.mk (some "alice") (some true) none)) 5 6
        (requestWith defaultRequestHeaderKey "  abc123  ")
      = Outcome.resolved (some (APIKeyInfo.mk (some "alice") (some true) none)) :=
  ⟨by decide,
    (withExistingKey_trim defaultRequestHeaderKey _ 5 6
      (requestWith defaultRequestHeaderKey "  abc123  ")
      (requestWith defaultRequestHeaderKey "abc123") "  abc123  "
      (by decide) (by decide) (by decide)).1,
    (withExistingKey_trim defaultRequestHeaderKey _ 5 6
      (requestWith defaultRequestHeaderKey "  abc123  ")
      (requestWith defaultRequestHeaderKey "abc123") "  abc123  "
      (by decide) (by decide) (by decide)).2,
    by decide⟩

/-! ## Existence versus validity -/

/-- C13, as stated, fails: a stored record whose `issuee` is set to the empty
string is not returned by `withExistingKey`, which rejects with `UnknownKey`, and
`withValidKey` fails with that same `UnknownKey`, not with `InvalidKey`. -/
theorem withExistingKey_only_existence_counterexample :
    (APIKeyInfo.mk (some "") (some true) (some (JSDate.valid 86400000))).issuee.isSome = true ∧
    withExistingKey defaultRequestHeaderKey
      (upsert emptyStore "abc123"
        (APIKeyInfo.mk (some "") (some true) (some (JSDate.valid 86400000)))) 172800000
      (requestWith defaultRequestHeaderKey "abc123") = Outcome.rejected UnknownKey ∧
    withValidKey defaultRequestHeaderKey
      (upsert emptyStore "abc123"
        (APIKeyInfo.mk (some "") (some true) (some (JSDate.valid 86400000))))
      172800000 172800001
      (requestWith defaultRequestHeaderKey "abc123") = Outcome.rejected UnknownKey ∧
    UnknownKey ≠ InvalidKey := by
  decide

/-- C13 (amended): for every non-empty key `k` without surrounding white space
whose stored record `r` has a non-empty `issuee`, `withExistingKey` on a request
carrying `k` resolves with `r`, also when `r` is inactive or expired, while
`withValidKey` on the same request rejects with `InvalidKey` in those two cases. -/
theorem withExistingKey_only_existence (requestHeaderKey : String) (store : ConfigStore)
    (now₁ now₂ : Int) (request : Option Request) (k : String) (r : APIKeyInfo)
    (s : String) (hv : headerValue requestHeaderKey request = some k) (hne : k ≠ "")
    (ht : jsTrim k = k) (hst : store ("APIKeys/" ++ k) = some r)
    (hi : r.issuee = some s) (hs : s ≠ "") :
    withExistingKey requestHeaderKey store now₁ request = Outcome.resolved (some r) ∧
    (status now₂ (some r) = KeyStatus.Inactive ∨ status now₂ (some r) = KeyStatus.Expired →
      withValidKey requestHeaderKey store now₁ now₂ request
        = Outcome.rejected InvalidKey) := by
  have hk : getKeyInfo store k = some r := by
    unfold getKeyInfo getGlobalData
    rw [getDBKey_eq, hst]
  have hex : status now₁ (some r) ≠ KeyStatus.DoesNotExist :=
    status_of_truthy_issuee now₁ r (by rw [hi]; exact truthyString_some s hs)
  have he : withExistingKey requestHeaderKey store now₁ request
      = Outcome.resolved (some r) := by
    rw [withExistingKey_of_header requestHeaderKey store now₁ request k hv hne, ht, hk]
    simp [hex]
  refine ⟨he, ?_⟩
  intro hbad
  have : status now₂ (some r) ≠ KeyStatus.Valid := by
    rcases hbad with hbad | hbad <;> rw [hbad] <;> decide
  simp [withValidKey, he, this]

/-- Scenario E: `{issuee: "bob", isActive: true, expiryDate: <yesterday>}`, with
the clock two days after the epoch and the expiry one day after it. -/
theorem withExistingKey_only_existence_witness :
    withExistingKey defaultRequestHeaderKey
      (upsert emptyStore "abc123"
        (APIKeyInfo.mk (some "bob") (some true) (some (JSDate.valid 86400000)))) 172800000
      (requestWith defaultRequestHeaderKey "abc123")
      = Outcome.resolved
        (some (APIKeyInfo.mk (some "bob") (some true) (some (JSDate.valid 86400000)))) ∧
    withValidKey defaultRequestHeaderKey
      (upsert emptyStore "abc123"
        (APIKeyInfo.mk (some "bob") (some true) (some (JSDate.valid 86400000))))
      172800000 172800001
      (requestWith defaultRequestHeaderKey "abc123") = Outcome.rejected InvalidKey :=
  ⟨(withExistingKey_only_existence defaultRequestHeaderKey
      (upsert emptyStore "abc123"
        (APIKeyInfo.mk (some "bob") (some true) (some (JSDate.valid 86400000))))
      172800000 172800001 (requestWith defaultRequestHeaderKey "abc123") "abc123"
      (APIKeyInfo.mk (some "bob") (some true) (some (JSDate.valid 86400000))) "bob"
      (by decide) (by decide) (by decide) (by decide) rfl (by decide)).1,
    (withExistingKey_only_existence defaultRequestHeaderKey
      (upsert emptyStore "abc123"
        (APIKeyInfo.mk (some "bob") (some true) (some (JSDate.valid 86400000))))
      172800000 172800001 (requestWith defaultRequestHeaderKey "abc123") "abc123"
      (APIKeyInfo.mk (some "bob") (some true) (some (JSDate.valid 86400000))) "bob"
      (by decide) (by decide) (by decide) (by decide) rfl (by decide)).2
      (Or.inr (by decide))⟩

/-! ## Storage layout -/

theorem getDBKey_injective : Function.Injective getDBKey := by
  intro k₁ k₂ h
  rw [getDBKey_eq, getDBKey_eq, String.ext_iff, String.data_append, String.data_append] at h
  exact String.ext (List.append_cancel_left h)

theorem setGlobalData_other (store : ConfigStore) (key key' : String) (value : APIKeyInfo)
    (h : key' ≠ key) : setGlobalData store key value key' = store key' := by
  simp [setGlobalData, h]

/-- C14: the storage key of `k` is exactly `"APIKeys/" ++ k`; `getDBKey` is
injective; `upsert k r` and `delete k` leave every store entry other than
`"APIKeys/" ++ k` unchanged, in particular the entries of every other API key and
every entry whose name is not of the form `"APIKeys/" ++ k'`. -/
theorem getDBKey_frame (store : ConfigStore) (k : String) (r : APIKeyInfo) :
    getDBKey k = "APIKeys/" ++ k ∧
    Function.Injective getDBKey ∧
    (∀ key, key ≠ "APIKeys/" ++ k →
      upsert store k r key = store key ∧ delete store k key = store key) ∧
    (∀ k', k' ≠ k →
      getKeyInfo (upsert store k r) k' = getKeyInfo store k' ∧
      getKeyInfo (delete store k) k' = getKeyInfo store k') ∧
    (∀ key, (∀ k', key ≠ "APIKeys/" ++ k') →
      upsert store k r key = store key ∧ delete store k key = store key) := by
  have frame : ∀ key, key ≠ "APIKeys/" ++ k →
      upsert store k r key = store key ∧ delete store k key = store key := by
    intro key hkey
    rw [← getDBKey_eq] at hkey
    exact ⟨setGlobalData_other store _ key r hkey,
      setGlobalData_other store _ key APIKeyInfo.empty hkey⟩
  refine ⟨getDBKey_eq k, getDBKey_injective, frame, ?_, fun key hkey => frame key (hkey k)⟩
  intro k' hk'
  have hne : getDBKey k' ≠ "APIKeys/" ++ k := by
    rw [← getDBKey_eq]
    exact fun h => hk' (getDBKey_injective h)
  exact ⟨(frame _ hne).1, (frame _ hne).2⟩

/-- C15: after `delete k` the store holds an entry under `"APIKeys/" ++ k`, and
that entry is the empty object, which has no `issuee`; `delete k` leaves the same
store as `upsert k {}`. -/
theorem delete_soft (store : ConfigStore) (k : String) :
    delete store k ("APIKeys/" ++ k) = some APIKeyInfo.empty ∧
    (delete store k ("APIKeys/" ++ k)).isSome = true ∧
    APIKeyInfo.empty = APIKeyInfo.mk none none none ∧
    APIKeyInfo.empty.issuee = none ∧
    delete store k = upsert store k APIKeyInfo.empty := by
  have h : delete store k ("APIKeys/" ++ k) = some APIKeyInfo.empty := by
    rw [← getDBKey_eq]
    exact getGlobalData_setGlobalData_same store (getDBKey k) APIKeyInfo.empty
  refine ⟨h, ?_, rfl, rfl, rfl⟩
  rw [h]
  rfl

/-! ## Status and the clock -/

theorem status_eq_expired_iff (now : Int) (info : Option APIKeyInfo) :
    status now info = KeyStatus.Expired ↔
      ∃ r s ms, info = some r ∧ r.issuee = some s ∧ s ≠ "" ∧ r.isActive = some true ∧
        r.expiryDate = some (JSDate.valid ms) ∧ ms < now := by
  constructor
  · intro h
    cases info with
    | none => simp [status] at h
    | some r =>
      obtain ⟨issuee, isActive, expiryDate⟩ := r
      cases issuee with
      | none => simp [status, truthyString] at h
      | some s =>
        by_cases hs : s = ""
        · simp [status, truthyString, hs] at h
        · cases isActive with
          | none => simp [status, truthyString, truthyBool, hs] at h
          | some b =>
            cases b with
            | false => simp [status, truthyString, truthyBool, hs] at h
            | true =>
              cases expiryDate with
              | none => simp [status, truthyString, truthyBool, hs] at h
              | some d =>
                cases d with
                | invalid => simp [status, truthyString, truthyBool, hs, JSDate.lt] at h
                | valid ms =>
                  by_cases hlt : ms < now
                  · exact ⟨_, s, ms, rfl, rfl, hs, rfl, rfl, hlt⟩
                  · simp [status, truthyString, truthyBool, hs, JSDate.lt, hlt] at h
  · rintro ⟨r, s, ms, rfl, hi, hs, ha, he, hlt⟩
    simp [status, hi, ha, he, truthyString, truthyBool, hs, JSDate.lt, hlt]

theorem status_eq_valid_iff (now : Int) (r : APIKeyInfo) :
    status now (some r) = KeyStatus.Valid ↔
      truthyString r.issuee = true ∧ truthyBool r.isActive = true ∧
        ∀ d, r.expiryDate = some d → d.lt now = false := by
  unfold status
  cases hi : truthyString r.issuee
  · simp [hi]
  · cases ha : truthyBool r.isActive
    · simp [hi, ha]
    · cases he : r.expiryDate with
      | none => simp [hi, ha, he]
      | some d => cases hd : d.lt now <;> simp [hi, ha, he, hd]

theorem JSDate.lt_mono (d : JSDate) (t t' : Int) (h : t ≤ t') (hd : d.lt t = true) :
    d.lt t' = true := by
  cases d with
  | invalid => simp [JSDate.lt] at hd
  | valid ms =>
    simp only [JSDate.lt, decide_eq_true_eq] at hd ⊢
    omega

/-- C16, as stated, fails: with `issuee` set to the empty string, a record with
`isActive` true whose expiry date equals the clock is `DoesNotExist`, not `Valid`;
and a record with `isActive` true whose expiry date is strictly before the clock
is not `Expired`, so the equivalence fails from right to left. -/
theorem status_boundary_counterexample :
    (APIKeyInfo.mk (some "") (some true) (some (JSDate.valid 100))).issuee.isSome = true ∧
    status 100 (some (APIKeyInfo.mk (some "") (some true) (some (JSDate.valid 100))))
      = KeyStatus.DoesNotExist ∧
    status 100 (some (APIKeyInfo.mk (some "") (some true) (some (JSDate.valid 100))))
      ≠ KeyStatus.Valid ∧
    (APIKeyInfo.mk (some "") (some true) (some (JSDate.valid 0))).issuee.isSome = true ∧
    (APIKeyInfo.mk (some "") (some true) (some (JSDate.valid 0))).isActive = some true ∧
    (0 : Int) < 100 ∧
    status 100 (some (APIKeyInfo.mk (some "") (some true) (some (JSDate.valid 0))))
      ≠ KeyStatus.Expired := by
  decide

/-- C16 (amended): a record whose `issuee` is a non-empty string, whose `isActive`
is `true` and whose expiry date equals the clock exactly has status `Valid`; and
the status is `Expired` if and only if the record is present, its `issuee` is a
non-empty string, its `isActive` is `true`, and its expiry date is set and
strictly less than the clock. -/
theorem status_boundary (now : Int) (info : Option APIKeyInfo) :
    (∀ r s, info = some r → r.issuee = some s → s ≠ "" → r.isActive = some true →
      r.expiryDate = some (JSDate.valid now) → status now info = KeyStatus.Valid) ∧
    (status now info = KeyStatus.Expired ↔
      ∃ r s ms, info = some r ∧ r.issuee = some s ∧ s ≠ "" ∧ r.isActive = some true ∧
        r.expiryDate = some (JSDate.valid ms) ∧ ms < now) := by
  refine ⟨?_, status_eq_expired_iff now info⟩
  rintro r s rfl hi hs ha he
  simp [status, hi, ha, he, truthyString, truthyBool, hs, JSDate.lt]

theorem status_boundary_witness :
    status 100 (some (APIKeyInfo.mk (some "alice") (some true) (some (JSDate.valid 100))))
      = KeyStatus.Valid ∧
    status 101 (some (APIKeyInfo.mk (some "alice") (some true) (some (JSDate.valid 100))))
      = KeyStatus.Expired :=
  ⟨(status_boundary 100 _).1 _ "alice" rfl rfl (by decide) rfl rfl,
    (status_boundary 101
      (some (APIKeyInfo.mk (some "alice") (some true) (some (JSDate.valid 100))))).2.2
      ⟨_, "alice", 100, rfl, rfl, by decide, rfl, rfl, by decide⟩⟩

/-- C17: for a fixed record and clock readings `t ≤ t'`, `Expired` at `t` gives
`Expired` at `t'` and `Valid` at `t'` gives `Valid` at `t`; a `DoesNotExist` or
`Inactive` result at one clock reading is the result at every clock reading. -/
theorem status_clock_monotone (info : Option APIKeyInfo) (t t' : Int) (h : t ≤ t') :
    (status t info = KeyStatus.Expired → status t' info = KeyStatus.Expired) ∧
    (status t' info = KeyStatus.Valid → status t info = KeyStatus.Valid) ∧
    (∀ u u', status u info = KeyStatus.DoesNotExist →
      status u' info = KeyStatus.DoesNotExist) ∧
    (∀ u u', status u info = KeyStatus.Inactive → status u' info = KeyStatus.Inactive) := by
  refine ⟨?_, ?_, ?_, ?_⟩
  · intro he
    obtain ⟨r, s, ms, hr, hi, hs, ha, hx, hlt⟩ := (status_eq_expired_iff t info).1 he
    exact (status_eq_expired_iff t' info).2 ⟨r, s, ms, hr, hi, hs, ha, hx, by omega⟩
  · intro hv
    cases info with
    | none => simp [status] at hv
    | some r =>
      obtain ⟨hi, ha, hd⟩ := (status_eq_valid_iff t' r).1 hv
      refine (status_eq_valid_iff t r).2 ⟨hi, ha, fun d hx => ?_⟩
      have h' := hd d hx
      cases hlt : d.lt t with
      | false => rfl
      | true => rw [JSDate.lt_mono d t t' h hlt] at h'; cases h'
  · intro u u' hu
    cases info with
    | none => rfl
    | some r =>
      apply status_of_falsy_issuee
      cases hi : truthyString r.issuee with
      | false => rfl
      | true => exact absurd hu (status_of_truthy_issuee u r hi)
  · intro u u' hu
    cases info with
    | none => simp [status] at hu
    | some r =>
      unfold status at hu ⊢
      cases hi : truthyString r.issuee
      · simp [hi] at hu
      · cases ha : truthyBool r.isActive
        · simp [hi, ha]
        · cases he : r.expiryDate with
          | none => simp [hi, ha, he] at hu
          | some d => cases hd : d.lt u <;> simp [hi, ha, he, hd] at hu

theorem status_clock_monotone_witness :
    (50 : Int) ≤ 150 ∧
    status 150 (some (APIKeyInfo.mk (some "alice") (some true) (some (JSDate.valid 100))))
      = KeyStatus.Expired ∧
    status 50 (some (APIKeyInfo.mk (some "alice") (some true) (some (JSDate.valid 100))))
      = KeyStatus.Valid ∧
    (status 50 (some (APIKeyInfo.mk (some "alice") (some true) (some (JSDate.valid 10))))
        = KeyStatus.Expired →
      status 150 (some (APIKeyInfo.mk (some "alice") (some true) (some (JSDate.valid 10))))
        = KeyStatus.Expired) :=
  ⟨by decide, by decide, by decide,
    (status_clock_monotone
      (some (APIKeyInfo.mk (some "alice") (some true) (some (JSDate.valid 10))))
      50 150 (by decide)).1⟩

/-! ## Empty issuee -/

/-- C18: a record whose `issuee` is the empty string has status `DoesNotExist` for
every `isActive`, expiry date and clock reading, the same status as the record
with `issuee` removed; so `withExistingKey` on a request whose key stores such a
record rejects with `UnknownKey`. -/
theorem status_empty_issuee (requestHeaderKey : String) (store : ConfigStore)
    (now : Int) (request : Option Request) (h : String) (r : APIKeyInfo)
    (hv : headerValue requestHeaderKey request = some h) (hne : h ≠ "")
    (hst : store ("APIKeys/" ++ jsTrim h) = some r) (hi : r.issuee = some "") :
    (∀ t a e, status t (some (APIKeyInfo.mk (some "") a e)) = KeyStatus.DoesNotExist ∧
      status t (some (APIKeyInfo.mk (some "") a e))
        = status t (some (APIKeyInfo.mk none a e))) ∧
    status now (some r) = KeyStatus.DoesNotExist ∧
    withExistingKey requestHeaderKey store now request = Outcome.rejected UnknownKey := by
  have hr : status now (some r) = KeyStatus.DoesNotExist :=
    status_of_falsy_issuee now r (by rw [hi]; rfl)
  refine ⟨fun t a e => ⟨rfl, rfl⟩, hr, ?_⟩
  have hk : getKeyInfo store (jsTrim h) = some r := by
    unfold getKeyInfo getGlobalData
    rw [getDBKey_eq, hst]
  rw [withExistingKey_of_header requestHeaderKey store now request h hv hne, hk]
  simp [hr]

theorem status_empty_issuee_witness :
    status 100 (some (APIKeyInfo.mk (some "") (some true) (some (JSDate.valid 200))))
      = KeyStatus.DoesNotExist ∧
    withExistingKey defaultRequestHeaderKey
      (upsert emptyStore "abc123"
        (APIKeyInfo.mk (some "") (some true) (some (JSDate.valid 200)))) 100
      (requestWith defaultRequestHeaderKey "abc123") = Outcome.rejected UnknownKey :=
  ⟨(status_empty_issuee defaultRequestHeaderKey
      (upsert emptyStore "abc123"
        (APIKeyInfo.mk (some "") (some true) (some (JSDate.valid 200)))) 100
      (requestWith defaultRequestHeaderKey "abc123") "abc123"
      (APIKeyInfo.mk (some "") (some true) (some (JSDate.valid 200)))
      (by decide) (by decide) (by decide) rfl).2.1,
    (status_empty_issuee defaultRequestHeaderKey
      (upsert emptyStore "abc123"
        (APIKeyInfo.mk (some "") (some true) (some (JSDate.valid 200)))) 100
      (requestWith defaultRequestHeaderKey "abc123") "abc123"
      (APIKeyInfo.mk (some "") (some true) (some (JSDate.valid 200)))
      (by decide) (by decide) (by decide) rfl).2.2⟩

/-! ## Effects on the store -/

theorem withExistingKeyS_eq (requestHeaderKey : String) (now : Int)
    (request : Option Request) (store : ConfigStore) :
    withExistingKeyS requestHeaderKey now request store
      = (withExistingKey requestHeaderKey store now request, store) := by
  unfold withExistingKeyS withExistingKey getKeyInfoS getGlobalDataS statusS getKeyInfo
  cases headerRead requestHeaderKey request with
  | undefined => rfl
  | inherited => rfl
  | text key =>
    by_cases hk : key = ""
    · simp [hk]
    · by_cases hs : status now (getGlobalData store (getDBKey (jsTrim key)))
          = KeyStatus.DoesNotExist
      · simp [hk, hs]
      · simp [hk, hs]

theorem withValidKeyS_eq (requestHeaderKey : String) (now₁ now₂ : Int)
    (request : Option Request) (store : ConfigStore) :
    withValidKeyS requestHeaderKey now₁ now₂ request store
      = (withValidKey requestHeaderKey store now₁ now₂ request, store) := by
  unfold withValidKeyS withValidKey statusS
  rw [withExistingKeyS_eq]
  cases withExistingKey requestHeaderKey store now₁ request with
  | resolved keyInfo =>
    by_cases hs : status now₂ keyInfo = KeyStatus.Valid
    · simp [hs]
    · simp [hs]
  | rejected e => rfl
  | thrown e => rfl

/-- C19: `withExistingKey` and `withValidKey` hand back the store they were given,
on every store and request and whatever their outcome (resolved, rejected or
thrown), and their outcome is the one computed from that store; `status` hands
back the store it was given; whereas `upsert` does change the store. -/
theorem auth_read_only (requestHeaderKey : String) (store : ConfigStore)
    (now₁ now₂ : Int) (request : Option Request) (info : Option APIKeyInfo) :
    (withExistingKeyS requestHeaderKey now₁ request store).2 = store ∧
    (withExistingKeyS requestHeaderKey now₁ request store).1
      = withExistingKey requestHeaderKey store now₁ request ∧
    (withValidKeyS requestHeaderKey now₁ now₂ request store).2 = store ∧
    (withValidKeyS requestHeaderKey now₁ now₂ request store).1
      = withValidKey requestHeaderKey store now₁ now₂ request ∧
    statusS now₁ info store = (status now₁ info, store) ∧
    (∀ k r, (upsertS k r store).2 (getDBKey k) = some r) := by
  rw [withExistingKeyS_eq, withValidKeyS_eq]
  exact ⟨rfl, rfl, rfl, rfl, rfl,
    fun k r => getGlobalData_setGlobalData_same store (getDBKey k) r⟩

end APIKeys
